import Mathlib

/-!
Shallow embedding of the per-user email monitoring core of the ai-agent
backend: the storage layer (storage.ts), the OpenAI service
(services/openaiService.ts), the Gmail service boundary
(services/gmailService.ts) and the email processor
(services/emailProcessor.ts).

Database rows are kept in lists with the newest row first, which models
the select ordered by createdAt descending used by getUserEmailLogs
(row insertion timestamps are strictly increasing).  External services
(credential store, Gmail API, OpenAI API) are modelled by an environment
of deterministic oracles; a call that throws is an oracle returning
Except.error.  Exceptions caught by a try/catch in the source are
modelled by the corresponding match on the oracle result.
-/

namespace AIAgent

/-- A raw Gmail message as handed to processEmail; only its id is read there. -/
structure Email where
  id : String
deriving DecidableEq

/-- Result of gmailService.getEmailContent: sender, subject and body. -/
structure EmailContent where
  fromEmail : String
  subject : String
  body : String
deriving DecidableEq

/-- The user_credentials row as read by the core (storage.getUserCredentials). -/
structure UserCredentials where
  agentActive : Bool
  openaiApiKey : Option String
  gmailAccessToken : Option String
  gmailRefreshToken : Option String
  personalDescription : Option String
  resumeLink : Option String
deriving DecidableEq

/-- Parsed JSON object returned by the classification chat completion;
every field may be missing (JSON.parse of arbitrary model output). -/
structure RawClassification where
  action : Option String
  confidence : Option ℚ
  reasoning : Option String
deriving DecidableEq

/-- Value returned by openaiService.analyzeEmail. -/
structure ClassificationResult where
  action : String
  confidence : ℚ
  reasoning : String
deriving DecidableEq

/-- An email_logs row (fields the core reads or writes). -/
structure EmailLog where
  id : Nat
  userId : String
  emailId : String
  fromEmail : String
  subject : String
  action : String
  responseText : Option String
  status : String
deriving DecidableEq

/-- Argument of storage.insertEmailLog (the row without its serial id). -/
structure InsertEmailLog where
  userId : String
  emailId : String
  fromEmail : String
  subject : String
  action : String
  responseText : Option String := none
  status : String
deriving DecidableEq

/-- An activities row: type tag, description and the metadata written by
processEmail (from, subject, action, confidence). -/
structure Activity where
  userId : String
  type : String
  description : String
  metaFrom : String
  metaSubject : String
  metaAction : String
  metaConfidence : ℚ
deriving DecidableEq

/-- One call made to the Gmail client (the Mail Client collaborator). -/
inductive MailCall
  | listCall (userId query : String) (maxResults : Nat)
  | sendCall (userId toAddr subject body : String)
  | starCall (userId messageId : String)
deriving DecidableEq

/-- Observable state: the email_logs table, the activities table (both
newest first) and the trace of calls made to the Gmail client. -/
structure St where
  logs : List EmailLog
  activities : List Activity
  mailCalls : List MailCall
  nextLogId : Nat
deriving DecidableEq

/-- Deterministic oracles for the external collaborators.  An oracle
returning Except.error models the corresponding call throwing. -/
structure Env where
  credentials : String → Option UserCredentials
  listEmails : String → Except Unit (List Email)
  getEmailContent : Email → Except Unit EmailContent
  classifyApi : String → String → Except Unit RawClassification
  draftReplyApi : String → String → String → Except Unit (Option String)
  sendEmail : String → String → String → String → Except Unit Unit
  starEmail : String → String → Except Unit Unit

/-- JS truthiness of an optional string field: undefined, null and the
empty string are falsy. -/
def jsTruthy : Option String → Bool
  | none => false
  | some s => !(s == "")

/-- JS (x or-else d) for an optional string: the default replaces a
missing or empty value. -/
def strOrDefault (x : Option String) (d : String) : String :=
  match x with
  | none => d
  | some s => if s == "" then d else s

/-- JS (x or-else 0) for the optional numeric confidence field. -/
def numOrZero (x : Option ℚ) : ℚ := x.getD 0

/-- storage.insertEmailLog: appends a new row (serial id assigned by the
database) and returns it. -/
def insertEmailLog (s : St) (l : InsertEmailLog) : St × EmailLog :=
  let row : EmailLog :=
    { id := s.nextLogId, userId := l.userId, emailId := l.emailId
    , fromEmail := l.fromEmail, subject := l.subject, action := l.action
    , responseText := l.responseText, status := l.status }
  ({ s with logs := row :: s.logs, nextLogId := s.nextLogId + 1 }, row)

/-- storage.insertActivity: appends a new activities row. -/
def insertActivity (s : St) (a : Activity) : St :=
  { s with activities := a :: s.activities }

/-- storage.getUserEmailLogs: the user's rows ordered by createdAt
descending, limited (default limit 50). -/
def getUserEmailLogs (s : St) (userId : String) (limit : Nat := 50) : List EmailLog :=
  (s.logs.filter (fun l => l.userId == userId)).take limit

/-- Record one call to the Gmail client in the trace. -/
def recordMailCall (s : St) (c : MailCall) : St :=
  { s with mailCalls := c :: s.mailCalls }

/-- openaiService default reply body used when generation fails or the
model returns no content. -/
def defaultReplyText : String :=
  "Thank you for your interest. Please find my resume attached."

/-- openaiService.analyzeEmail: throws when the user has no (truthy)
OpenAI API key; a failing chat completion is caught and turned into the
ignore result; otherwise the parsed fields are defaulted and the
confidence is clamped by Math.max(0, Math.min(1, c or-else 0)). -/
def analyzeEmail (env : Env) (userId emailContent : String) :
    Except Unit ClassificationResult :=
  match env.credentials userId with
  | .none => .error ()
  | .some cred =>
    if jsTruthy cred.openaiApiKey then
      match env.classifyApi userId emailContent with
      | .error _ =>
        .ok { action := "ignore", confidence := 0
            , reasoning := "Error analyzing email" }
      | .ok result =>
        .ok { action := strOrDefault result.action "ignore"
            , confidence := max 0 (min 1 (numOrZero result.confidence))
            , reasoning := strOrDefault result.reasoning "No reasoning provided" }
    else .error ()

/-- openaiService.generateReply: throws when the user has no (truthy)
OpenAI API key; a failing chat completion is caught and turned into the
default reply text, as is an empty completion. -/
def generateReply (env : Env) (userId emailContent fromEmail : String) :
    Except Unit String :=
  match env.credentials userId with
  | .none => .error ()
  | .some cred =>
    if jsTruthy cred.openaiApiKey then
      match env.draftReplyApi userId emailContent fromEmail with
      | .error _ => .ok defaultReplyText
      | .ok content => .ok (strOrDefault content defaultReplyText)
    else .error ()

/-- JS s.startsWith(p) on the underlying character sequences. -/
def charsStartWith : List Char → List Char → Bool
  | _, [] => true
  | [], _ :: _ => false
  | c :: cs, d :: ds => c == d && charsStartWith cs ds

/-- JS s.startsWith(p): p is a leading substring of s, case-sensitive. -/
def strStartsWith (s p : String) : Bool :=
  charsStartWith s.data p.data

/-- Reply subject computed by handleReplyAction: the original subject if
it already starts with the string consisting of R, e and a colon, else
that string, a space and the subject. -/
def replySubject (subject : String) : String :=
  if strStartsWith subject "Re:" then subject else "Re: " ++ subject

/-- emailProcessor.handleReplyAction: generate the reply, re-extract the
subject, send, and append a sent row; any throw in those steps is caught
and a failed row with subject Reply failed is appended instead.  The
logId argument is accepted and ignored, as in the source. -/
def handleReplyAction (env : Env) (userId : String) (email : Email)
    (_logId : Nat) (fromEmail body : String) (s : St) : St :=
  match generateReply env userId body fromEmail with
  | .error _ =>
    (insertEmailLog s
      { userId := userId, emailId := email.id, fromEmail := fromEmail
      , subject := "Reply failed", action := "reply", status := "failed" }).1
  | .ok replyText =>
    match env.getEmailContent email with
    | .error _ =>
      (insertEmailLog s
        { userId := userId, emailId := email.id, fromEmail := fromEmail
        , subject := "Reply failed", action := "reply", status := "failed" }).1
    | .ok content =>
      let rs := replySubject content.subject
      let s1 := recordMailCall s (MailCall.sendCall userId fromEmail rs replyText)
      match env.sendEmail userId fromEmail rs replyText with
      | .error _ =>
        (insertEmailLog s1
          { userId := userId, emailId := email.id, fromEmail := fromEmail
          , subject := "Reply failed", action := "reply", status := "failed" }).1
      | .ok _ =>
        (insertEmailLog s1
          { userId := userId, emailId := email.id, fromEmail := fromEmail
          , subject := rs, action := "reply", responseText := some replyText
          , status := "sent" }).1

/-- emailProcessor.handleStarAction: star the message and append a sent
row; a throw is caught and a failed row with subject Star failed is
appended instead. -/
def handleStarAction (env : Env) (userId : String) (email : Email)
    (_logId : Nat) (s : St) : St :=
  let s1 := recordMailCall s (MailCall.starCall userId email.id)
  match env.starEmail userId email.id with
  | .error _ =>
    (insertEmailLog s1
      { userId := userId, emailId := email.id, fromEmail := ""
      , subject := "Star failed", action := "star", status := "failed" }).1
  | .ok _ =>
    (insertEmailLog s1
      { userId := userId, emailId := email.id, fromEmail := ""
      , subject := "Email starred", action := "star", status := "sent" }).1

/-- Result of the body of processEmail before its catch: ok is normal
completion, err is an exception escaping to the catch; both carry the
state at that point (side effects made before a throw persist). -/
inductive PResult
  | ok (s : St)
  | err (s : St)
deriving DecidableEq

/-- The state carried by a PResult. -/
def PResult.state : PResult → St
  | .ok s => s
  | .err s => s

/-- Body of emailProcessor.processEmail (inside its try): skip if any of
the rows returned by getUserEmailLogs (default limit) already has this
message id; otherwise extract content, classify, append the pending row,
dispatch on the action string and append the activity row. -/
def processEmailRaw (env : Env) (userId : String) (email : Email) (s : St) :
    PResult :=
  if (getUserEmailLogs s userId).any (fun log => log.emailId == email.id) then
    .ok s
  else
    match env.getEmailContent email with
    | .error _ => .err s
    | .ok content =>
      match analyzeEmail env userId content.body with
      | .error _ => .err s
      | .ok analysis =>
        let r := insertEmailLog s
          { userId := userId, emailId := email.id
          , fromEmail := content.fromEmail, subject := content.subject
          , action := analysis.action, status := "pending" }
        let s2 :=
          if analysis.action == "reply" then
            handleReplyAction env userId email r.2.id content.fromEmail
              content.body r.1
          else if analysis.action == "star" then
            handleStarAction env userId email r.2.id r.1
          else r.1
        .ok (insertActivity s2
          { userId := userId
          , type := "email_" ++ analysis.action
          , description := "Email " ++
              (if analysis.action == "reply" then "replied to"
               else if analysis.action == "star" then "starred"
               else "processed") ++ ": " ++ content.subject
          , metaFrom := content.fromEmail
          , metaSubject := content.subject
          , metaAction := analysis.action
          , metaConfidence := analysis.confidence })

/-- emailProcessor.processEmail: the body with its try/catch, which
swallows any exception, so the per-message step always completes. -/
def processEmail (env : Env) (userId : String) (email : Email) (s : St) : St :=
  (processEmailRaw env userId email s).state

/-- The Gmail query string used by processNewEmails. -/
def unreadQuery : String := "is:unread newer_than:1d"

/-- emailProcessor.processNewEmails: no-op unless the credentials row
exists and agentActive is truthy; then list recent unread messages
(query capped at 10) and run processEmail on each in order.  A throw
from the list call is caught by the outer catch, aborting the run. -/
def processNewEmails (env : Env) (userId : String) (s : St) : St :=
  match env.credentials userId with
  | .none => s
  | .some cred =>
    if cred.agentActive then
      let s1 := recordMailCall s (MailCall.listCall userId unreadQuery 10)
      match env.listEmails userId with
      | .error _ => s1
      | .ok emails => emails.foldl (fun st e => processEmail env userId e st) s1
    else s

/-- Scheduler state: the monitoringIntervals Map (user id to interval
handle, as an association list read through mapGet), the set of live
interval timers with their owning user, and a fresh-handle counter. -/
structure SchedState where
  intervals : List (String × Nat)
  activeTimers : List (Nat × String)
  nextTimer : Nat
deriving DecidableEq

/-- Map.get on the association list: first binding of the key. -/
def mapGet : List (String × Nat) → String → Option Nat
  | [], _ => none
  | (k, v) :: rest, u => if k == u then some v else mapGet rest u

/-- Map.delete: drop all bindings of the key. -/
def mapDelete (m : List (String × Nat)) (u : String) : List (String × Nat) :=
  m.filter (fun q => q.1 != u)

/-- Map.set: bind the key, replacing any existing binding. -/
def mapSet (m : List (String × Nat)) (u : String) (t : Nat) :
    List (String × Nat) :=
  (u, t) :: mapDelete m u

/-- clearInterval: the timer with this handle stops being live. -/
def clearTimer (l : List (Nat × String)) (t : Nat) : List (Nat × String) :=
  l.filter (fun p => p.1 != t)

/-- emailProcessor.stopMonitoring: if the map has an interval for the
user, clear that timer and delete the map entry; otherwise do nothing. -/
def stopMonitoring (u : String) (s : SchedState) : SchedState :=
  match mapGet s.intervals u with
  | none => s
  | some t =>
    { s with
        intervals := mapDelete s.intervals u,
        activeTimers := clearTimer s.activeTimers t }

/-- emailProcessor.startMonitoring, registry part: stop any existing
monitoring for the user, create a fresh interval timer and register it.
(The immediate processNewEmails run touches only the pipeline state.) -/
def startMonitoring (u : String) (s : SchedState) : SchedState :=
  let s1 := stopMonitoring u s
  { intervals := mapSet s1.intervals u s1.nextTimer
  , activeTimers := (s1.nextTimer, u) :: s1.activeTimers
  , nextTimer := s1.nextTimer + 1 }

/-- Number of live periodic timers owned by the user. -/
def activeTaskCount (u : String) (s : SchedState) : Nat :=
  (s.activeTimers.filter (fun p => p.2 == u)).length

/-- Well-formedness of the scheduler state: every live timer is the one
its owner's map entry records and has a handle below the fresh counter,
and every map entry's handle is below the fresh counter.  It holds for
the initial empty state and is preserved by start and stop. -/
def SchedWF (s : SchedState) : Prop :=
  (∀ p ∈ s.activeTimers, mapGet s.intervals p.2 = some p.1 ∧ p.1 < s.nextTimer) ∧
  (∀ q ∈ s.intervals, q.2 < s.nextTimer)

/-! Concrete states and environments used to instantiate the theorems. -/

/-- A credentials row with the agent active and an OpenAI key. -/
def exCred : UserCredentials := ⟨true, some "k", none, none, none, none⟩

/-- Environment: active user, one fixed message content, classifier call
throws (so analyzeEmail yields the ignore fallback). -/
def exEnv1 : Env :=
  { credentials := fun _ => some exCred
  , listEmails := fun _ => .ok []
  , getEmailContent := fun _ => .ok ⟨"a@b", "subj", "body"⟩
  , classifyApi := fun _ _ => .error ()
  , draftReplyApi := fun _ _ _ => .error ()
  , sendEmail := fun _ _ _ _ => .ok ()
  , starEmail := fun _ _ => .ok () }

/-- A log row of user u for message x. -/
def exLogX : EmailLog := ⟨0, "u", "x", "a", "s", "ignore", none, "pending"⟩

/-- A log row of user u for message m. -/
def exLogM : EmailLog := ⟨1, "u", "m", "a", "s", "ignore", none, "pending"⟩

/-- A state whose 50 most recent rows for user u are for message x and
whose 51st (oldest) row is for message m. -/
def exSt1 : St := ⟨List.replicate 50 exLogX ++ [exLogM], [], [], 100⟩

/-- The empty pipeline state. -/
def exSt0 : St := ⟨[], [], [], 0⟩

/-- Environment whose credential store is empty. -/
def exEnvNoCred : Env :=
  { credentials := fun _ => none
  , listEmails := fun _ => .ok []
  , getEmailContent := fun _ => .ok ⟨"a@b", "subj", "body"⟩
  , classifyApi := fun _ _ => .error ()
  , draftReplyApi := fun _ _ _ => .error ()
  , sendEmail := fun _ _ _ _ => .ok ()
  , starEmail := fun _ _ => .ok () }

/-- Environment where the classifier proposes star and starring works. -/
def exEnvStar : Env :=
  { credentials := fun _ => some exCred
  , listEmails := fun _ => .ok []
  , getEmailContent := fun _ => .ok ⟨"a@b", "subj", "body"⟩
  , classifyApi := fun _ _ => .ok ⟨some "star", some 0, some "r"⟩
  , draftReplyApi := fun _ _ _ => .error ()
  , sendEmail := fun _ _ _ _ => .ok ()
  , starEmail := fun _ _ => .ok () }

/-- Environment where the classifier proposes reply and the send call
throws. -/
def exEnvSendFail : Env :=
  { credentials := fun _ => some exCred
  , listEmails := fun _ => .ok []
  , getEmailContent := fun _ => .ok ⟨"a@b", "subj", "body"⟩
  , classifyApi := fun _ _ => .ok ⟨some "reply", some 0, some "r"⟩
  , draftReplyApi := fun _ _ _ => .ok (some "text")
  , sendEmail := fun _ _ _ _ => .error ()
  , starEmail := fun _ _ => .ok () }

/-- Environment where the classifier returns a raw confidence of 5. -/
def exEnv7 : Env :=
  { credentials := fun _ => some exCred
  , listEmails := fun _ => .ok []
  , getEmailContent := fun _ => .ok ⟨"a@b", "subj", "body"⟩
  , classifyApi := fun _ _ => .ok ⟨some "reply", some 5, some "r"⟩
  , draftReplyApi := fun _ _ _ => .ok (some "text")
  , sendEmail := fun _ _ _ _ => .ok ()
  , starEmail := fun _ _ => .ok () }

/-- Environment where fetching the content of message bad throws while
everything else works (classifier call throws, yielding ignore). -/
def exEnv5 : Env :=
  { credentials := fun _ => some exCred
  , listEmails := fun _ => .ok [⟨"bad"⟩, ⟨"good"⟩]
  , getEmailContent := fun e => if e.id == "bad" then .error () else .ok ⟨"a@b", "subj", "body"⟩
  , classifyApi := fun _ _ => .error ()
  , draftReplyApi := fun _ _ _ => .error ()
  , sendEmail := fun _ _ _ _ => .ok ()
  , starEmail := fun _ _ => .ok () }

/-- A scheduler state with one registered task for user u. -/
def exSched9 : SchedState := ⟨[("u", 3)], [(3, "u")], 4⟩

/-- The empty scheduler state. -/
def exSchedEmpty : SchedState := ⟨[], [], 0⟩

/-! Helper lemmas. -/

theorem processEmail_skip (env : Env) (u : String) (e : Email) (s : St)
    (h : (getUserEmailLogs s u).any (fun log => log.emailId == e.id) = true) :
    processEmail env u e s = s := by
  unfold processEmail processEmailRaw
  rw [h]
  rfl

theorem getUserEmailLogs_any_head (u eid : String) (s : St)
    (row : EmailLog) (rest : List EmailLog)
    (hlogs : s.logs = row :: rest) (hu : row.userId = u) (he : row.emailId = eid) :
    (getUserEmailLogs s u).any (fun log => log.emailId == eid) = true := by
  unfold getUserEmailLogs
  rw [hlogs]
  have h50 : (50 : Nat) = 49 + 1 := rfl
  simp [List.filter_cons, hu, he, h50, List.take_succ_cons]

theorem mapGet_mapDelete_self (m : List (String × Nat)) (u : String) :
    mapGet (mapDelete m u) u = none := by
  induction m with
  | nil => rfl
  | cons q rest ih =>
    obtain ⟨k, v⟩ := q
    by_cases h : k = u
    · simpa [mapDelete, List.filter_cons, h] using ih
    · simpa [mapDelete, List.filter_cons, h, mapGet] using ih

theorem mapGet_mapDelete_ne (m : List (String × Nat)) (u u' : String)
    (h : u' ≠ u) : mapGet (mapDelete m u) u' = mapGet m u' := by
  induction m with
  | nil => rfl
  | cons q rest ih =>
    obtain ⟨k, v⟩ := q
    by_cases hk : k = u
    · subst hk
      simpa [mapDelete, List.filter_cons, mapGet, Ne.symm h] using ih
    · by_cases hk' : k = u'
      · simp [mapDelete, List.filter_cons, hk, mapGet, hk', h]
      · simpa [mapDelete, List.filter_cons, hk, mapGet, hk'] using ih

theorem mapGet_mapSet_self (m : List (String × Nat)) (u : String) (t : Nat) :
    mapGet (mapSet m u t) u = some t := by
  simp [mapSet, mapGet]

theorem mapGet_mapSet_ne (m : List (String × Nat)) (u u' : String) (t : Nat)
    (h : u' ≠ u) : mapGet (mapSet m u t) u' = mapGet m u' := by
  have h1 : mapGet (mapSet m u t) u' = mapGet (mapDelete m u) u' := by
    simp [mapSet, mapGet, Ne.symm h]
  rw [h1, mapGet_mapDelete_ne m u u' h]

theorem mapGet_mem (m : List (String × Nat)) (u : String) (t : Nat)
    (h : mapGet m u = some t) : (u, t) ∈ m := by
  induction m with
  | nil => simp [mapGet] at h
  | cons q rest ih =>
    obtain ⟨k, v⟩ := q
    by_cases hk : k = u
    · subst hk
      simp [mapGet] at h
      subst h
      exact List.mem_cons_self _ _
    · simp [mapGet, hk] at h
      exact List.mem_cons_of_mem _ (ih h)

theorem mapDelete_subset (m : List (String × Nat)) (u : String)
    (q : String × Nat) (h : q ∈ mapDelete m u) : q ∈ m :=
  List.mem_of_mem_filter h

theorem clearTimer_mem (l : List (Nat × String)) (t : Nat)
    (p : Nat × String) (h : p ∈ clearTimer l t) : p ∈ l ∧ p.1 ≠ t := by
  have := List.mem_filter.mp h
  refine ⟨this.1, ?_⟩
  simpa using this.2

theorem stop_nextTimer (u : String) (s : SchedState) :
    (stopMonitoring u s).nextTimer = s.nextTimer := by
  unfold stopMonitoring
  cases mapGet s.intervals u <;> rfl

theorem stop_noop (u : String) (s : SchedState)
    (h : mapGet s.intervals u = none) : stopMonitoring u s = s := by
  unfold stopMonitoring
  rw [h]

theorem stop_no_user_timer (u : String) (s : SchedState) (h : SchedWF s) :
    ∀ p ∈ (stopMonitoring u s).activeTimers, p.2 ≠ u := by
  intro p hp hpu
  unfold stopMonitoring at hp
  cases hm : mapGet s.intervals u with
  | none =>
    rw [hm] at hp
    have h1 := (h.1 p hp).1
    rw [hpu, hm] at h1
    exact Option.noConfusion h1
  | some t =>
    rw [hm] at hp
    obtain ⟨hmem, hne⟩ := clearTimer_mem _ _ _ hp
    have h1 := (h.1 p hmem).1
    rw [hpu, hm] at h1
    exact hne (Option.some.inj h1).symm

theorem stop_wf (u : String) (s : SchedState) (h : SchedWF s) :
    SchedWF (stopMonitoring u s) := by
  unfold stopMonitoring
  cases hm : mapGet s.intervals u with
  | none => exact h
  | some t =>
    constructor
    · intro p hp
      obtain ⟨hmem, hne⟩ := clearTimer_mem _ _ _ hp
      have h1 := h.1 p hmem
      have hpu : p.2 ≠ u := by
        intro hpu
        rw [hpu, hm] at h1
        exact hne (Option.some.inj h1.1).symm
      refine ⟨?_, h1.2⟩
      rw [mapGet_mapDelete_ne s.intervals u p.2 hpu]
      exact h1.1
    · intro q hq
      exact h.2 q (mapDelete_subset _ _ _ hq)

theorem start_wf_count (u : String) (s : SchedState) (h : SchedWF s) :
    SchedWF (startMonitoring u s) ∧ activeTaskCount u (startMonitoring u s) = 1 := by
  have hwf1 : SchedWF (stopMonitoring u s) := stop_wf u s h
  have hno : ∀ p ∈ (stopMonitoring u s).activeTimers, p.2 ≠ u :=
    stop_no_user_timer u s h
  constructor
  · constructor
    · intro p hp
      rcases List.mem_cons.mp hp with hp | hp
      · subst hp
        refine ⟨mapGet_mapSet_self _ _ _, ?_⟩
        simp [startMonitoring]
      · have h1 := hwf1.1 p hp
        refine ⟨?_, ?_⟩
        · show mapGet (mapSet (stopMonitoring u s).intervals u
            (stopMonitoring u s).nextTimer) p.2 = some p.1
          rw [mapGet_mapSet_ne _ _ _ _ (hno p hp)]
          exact h1.1
        · show p.1 < (stopMonitoring u s).nextTimer + 1
          exact Nat.lt_succ_of_lt h1.2
    · intro q hq
      rcases List.mem_cons.mp hq with hq | hq
      · subst hq
        simp [startMonitoring]
      · have := hwf1.2 q (mapDelete_subset _ _ _ hq)
        exact Nat.lt_succ_of_lt this
  · unfold activeTaskCount startMonitoring
    have hnil : (stopMonitoring u s).activeTimers.filter (fun p => p.2 == u) = [] := by
      rw [List.filter_eq_nil_iff]
      intro p hp
      simpa using hno p hp
    simp [List.filter_cons, hnil]

/-! Claim theorems. -/

/-- Claim C1, counterexample: in exSt1 user u has an email log entry for
message m (the oldest of 51 rows), yet processEmail on message m appends
a fresh log row for m (head of the new log list) and a fresh activity
row: the idempotency check reads only the 50 most recent rows. -/
theorem C1_counterexample :
    (exSt1.logs.any (fun l => l.userId == "u" && l.emailId == "m")) = true ∧
    (processEmail exEnv1 "u" ⟨"m"⟩ exSt1).logs.length = exSt1.logs.length + 1 ∧
    (processEmail exEnv1 "u" ⟨"m"⟩ exSt1).logs.head? =
      some ⟨100, "u", "m", "a@b", "subj", "ignore", none, "pending"⟩ ∧
    (processEmail exEnv1 "u" ⟨"m"⟩ exSt1).activities.length =
      exSt1.activities.length + 1 := by
  refine ⟨by decide, by rfl, by rfl, by rfl⟩

/-- Claim C1, amended: for every user and every message whose id appears
as the emailId of at least one of the rows returned by the idempotency
read (the user's 50 most recent log entries, the default limit of
getUserEmailLogs), processEmail produces no new log entries and no new
activity entries for that message: the state is returned unchanged. -/
theorem C1_amended_recent_entry_skips (env : Env) (u : String) (e : Email)
    (s : St)
    (h : (getUserEmailLogs s u).any (fun log => log.emailId == e.id) = true) :
    processEmail env u e s = s :=
  processEmail_skip env u e s h

/-- Witness for C1: message x is among the 50 most recent rows of exSt1,
so processEmail leaves the state unchanged. -/
theorem C1_witness : processEmail exEnv1 "u" ⟨"x"⟩ exSt1 = exSt1 :=
  C1_amended_recent_entry_skips exEnv1 "u" ⟨"x"⟩ exSt1 (by decide)

/-- Claim C2: for a user whose credentials row is absent or whose
agentActive flag is false, processNewEmails returns the state unchanged:
no Gmail client call is recorded and no log or activity row is
written. -/
theorem C2_inactive_noop (env : Env) (u : String) (s : St)
    (h : env.credentials u = none ∨
      ∃ cred, env.credentials u = some cred ∧ cred.agentActive = false) :
    processNewEmails env u s = s := by
  unfold processNewEmails
  rcases h with h | ⟨cred, hc, ha⟩
  · rw [h]
  · simp [hc, ha]

/-- Witness for C2: with an empty credential store, a pipeline run for
user u is a strict no-op. -/
theorem C2_witness : processNewEmails exEnvNoCred "u" exSt0 = exSt0 :=
  C2_inactive_noop exEnvNoCred "u" exSt0 (Or.inl rfl)

/-- Claim C6: under the scheduler invariant SchedWF (true of the initial
empty registry and preserved by start), startMonitoring leaves exactly
one live periodic task for the user, two starts in succession still
leave exactly one, and any previously registered timer for that user has
been cancelled (its handle is no longer live). -/
theorem C6_start_single_task (u : String) (s : SchedState) (h : SchedWF s) :
    SchedWF (startMonitoring u s) ∧
    activeTaskCount u (startMonitoring u s) = 1 ∧
    activeTaskCount u (startMonitoring u (startMonitoring u s)) = 1 ∧
    (∀ t, mapGet s.intervals u = some t →
      ∀ p ∈ (startMonitoring u s).activeTimers, p.1 ≠ t) := by
  obtain ⟨hwf, hcount⟩ := start_wf_count u s h
  refine ⟨hwf, hcount, (start_wf_count u (startMonitoring u s) hwf).2, ?_⟩
  intro t ht p hp hpt
  have htlt : t < s.nextTimer := h.2 (u, t) (mapGet_mem _ _ _ ht)
  rcases List.mem_cons.mp hp with hp | hp
  · have h1 : p.1 = (stopMonitoring u s).nextTimer := by rw [hp]
    rw [stop_nextTimer] at h1
    rw [hpt] at h1
    exact Nat.lt_irrefl _ (h1 ▸ htlt)
  · unfold stopMonitoring at hp
    rw [ht] at hp
    exact (clearTimer_mem _ _ _ hp).2 hpt

/-- Witness for C6: starting twice from the empty registry leaves
exactly one live task for user u. -/
theorem C6_witness :
    activeTaskCount "u" (startMonitoring "u" (startMonitoring "u" exSchedEmpty)) = 1 :=
  (C6_start_single_task "u" exSchedEmpty
    (by constructor <;> simp [exSchedEmpty])).2.2.1

/-- Claim C9: stopMonitoring with no registered task returns the state
unchanged; with a registered task it cancels exactly that interval timer
and removes the registration; and stopping twice equals stopping once
(the second call is a no-op). -/
theorem C9_stop_idempotent (u : String) (s : SchedState) :
    (mapGet s.intervals u = none → stopMonitoring u s = s) ∧
    (∀ t, mapGet s.intervals u = some t →
      mapGet (stopMonitoring u s).intervals u = none ∧
      (stopMonitoring u s).activeTimers = clearTimer s.activeTimers t) ∧
    stopMonitoring u (stopMonitoring u s) = stopMonitoring u s := by
  refine ⟨stop_noop u s, ?_, ?_⟩
  · intro t h
    unfold stopMonitoring
    rw [h]
    exact ⟨mapGet_mapDelete_self _ _, rfl⟩
  · cases hm : mapGet s.intervals u with
    | none =>
      rw [stop_noop u s hm]
      exact stop_noop u s hm
    | some t =>
      have h1 : mapGet (stopMonitoring u s).intervals u = none := by
        unfold stopMonitoring
        rw [hm]
        exact mapGet_mapDelete_self _ _
      exact stop_noop u (stopMonitoring u s) h1

/-- Witness for C9: stopping user u in a registry with task handle 3
removes the registration; stopping in the empty registry is a no-op. -/
theorem C9_witness :
    mapGet (stopMonitoring "u" exSched9).intervals "u" = none ∧
    stopMonitoring "u" exSchedEmpty = exSchedEmpty :=
  ⟨((C9_stop_idempotent "u" exSched9).2.1 3 (by decide)).1,
    (C9_stop_idempotent "u" exSchedEmpty).1 (by decide)⟩

/-- Claim C7: whenever the classification API call succeeds, the
confidence in the ClassificationResult returned by analyzeEmail lies in
the interval from 0 to 1; a raw confidence below 0 is clamped to 0 and a
raw confidence above 1 is clamped to 1, for any raw rational input. -/
theorem C7_confidence_clamped (env : Env) (u body : String)
    (cred : UserCredentials) (raw : RawClassification)
    (hc : env.credentials u = some cred)
    (hk : jsTruthy cred.openaiApiKey = true)
    (hr : env.classifyApi u body = .ok raw) :
    ∃ res, analyzeEmail env u body = .ok res ∧
      0 ≤ res.confidence ∧ res.confidence ≤ 1 ∧
      (numOrZero raw.confidence < 0 → res.confidence = 0) ∧
      (1 < numOrZero raw.confidence → res.confidence = 1) := by
  have hres : analyzeEmail env u body =
      .ok { action := strOrDefault raw.action "ignore"
          , confidence := max 0 (min 1 (numOrZero raw.confidence))
          , reasoning := strOrDefault raw.reasoning "No reasoning provided" } := by
    simp only [analyzeEmail, hc, hk, hr, if_true]
  refine ⟨_, hres, le_max_left _ _, max_le zero_le_one (min_le_left _ _), ?_, ?_⟩
  · intro hlt
    show max 0 (min 1 (numOrZero raw.confidence)) = 0
    rw [min_eq_right (le_of_lt (lt_trans hlt zero_lt_one))]
    exact max_eq_left (le_of_lt hlt)
  · intro hlt
    show max 0 (min 1 (numOrZero raw.confidence)) = 1
    rw [min_eq_left (le_of_lt hlt)]
    exact max_eq_right zero_le_one

/-- Witness for C7: a raw confidence of 5 is clamped into the unit
interval (to 1). -/
theorem C7_witness :
    ∃ res, analyzeEmail exEnv7 "u" "body" = .ok res ∧
      0 ≤ res.confidence ∧ res.confidence ≤ 1 ∧
      (numOrZero (some (5 : ℚ)) < 0 → res.confidence = 0) ∧
      (1 < numOrZero (some (5 : ℚ)) → res.confidence = 1) :=
  C7_confidence_clamped exEnv7 "u" "body" exCred ⟨some "reply", some 5, some "r"⟩
    rfl (by decide) rfl

/-- Claim C8, counterexample: the subject consisting of R, e, a colon
and hello does not begin with the claimed four-character reply marker
(with trailing space), so the claim requires the marker and a space to
be prepended; but the Reply Handler checks only the three-character
marker and returns the subject unchanged. -/
theorem C8_counterexample :
    strStartsWith "Re:hello" "Re: " = false ∧
    replySubject "Re:hello" = "Re:hello" ∧
    ("Re:hello" : String) ≠ "Re: " ++ "Re:hello" := by
  refine ⟨by decide, by decide, by decide⟩

/-- Claim C8, amended: the reply subject computed by the Reply Handler
equals the original subject when it begins with the exact case-sensitive
three-character marker R, e, colon (no trailing space required), and
otherwise equals the marker followed by a space prepended to the
subject. -/
theorem C8_amended_reply_subject (subject : String) :
    (strStartsWith subject "Re:" = true → replySubject subject = subject) ∧
    (strStartsWith subject "Re:" = false →
      replySubject subject = "Re: " ++ subject) := by
  constructor <;> intro h <;> simp [replySubject, h]

/-- Witness for C8: both branches of the amended claim at concrete
subjects. -/
theorem C8_witness :
    replySubject "Re:hi" = "Re:hi" ∧ replySubject "hi" = "Re: hi" :=
  ⟨(C8_amended_reply_subject "Re:hi").1 (by decide),
    (C8_amended_reply_subject "hi").2 (by decide)⟩

/-- Claim C5: an exception inside the body of processEmail for one
message of the batch is absorbed by its catch, so processNewEmails keeps
folding processEmail over the remaining messages: when the body for
message e throws leaving state se, the run's final state is the fold of
processEmail over the whole remaining suffix starting from se (rather
than the run stopping at se). -/
theorem C5_failure_isolated (env : Env) (u : String) (s se : St)
    (cred : UserCredentials) (pre suf : List Email) (e : Email)
    (hc : env.credentials u = some cred)
    (ha : cred.agentActive = true)
    (hg : env.listEmails u = .ok (pre ++ e :: suf))
    (hfail : processEmailRaw env u e
      (pre.foldl (fun st m => processEmail env u m st)
        (recordMailCall s (MailCall.listCall u unreadQuery 10))) = .err se) :
    processNewEmails env u s =
      suf.foldl (fun st m => processEmail env u m st) se := by
  have he : processEmail env u e
      (pre.foldl (fun st m => processEmail env u m st)
        (recordMailCall s (MailCall.listCall u unreadQuery 10))) = se := by
    have h2 : processEmail env u e
        (pre.foldl (fun st m => processEmail env u m st)
          (recordMailCall s (MailCall.listCall u unreadQuery 10))) =
        (processEmailRaw env u e
          (pre.foldl (fun st m => processEmail env u m st)
            (recordMailCall s (MailCall.listCall u unreadQuery 10)))).state := rfl
    rw [h2, hfail]
    rfl
  unfold processNewEmails
  simp only [hc, ha, hg, if_true]
  rw [List.foldl_append, List.foldl_cons, he]

/-- Witness for C5: in exEnv5 the content fetch for message bad throws,
yet the following message good is still processed (the final state is
the fold over the suffix). -/
theorem C5_witness :
    processNewEmails exEnv5 "u" exSt0 =
      [(⟨"good"⟩ : Email)].foldl (fun st m => processEmail exEnv5 "u" m st)
        (recordMailCall exSt0 (MailCall.listCall "u" unreadQuery 10)) :=
  C5_failure_isolated exEnv5 "u" exSt0
    (recordMailCall exSt0 (MailCall.listCall "u" unreadQuery 10))
    exCred [] [⟨"good"⟩] ⟨"bad"⟩ rfl rfl rfl (by decide)

/-! Dispatch-shape lemmas: the state computed by processEmail once the
idempotency check is passed, the content extracted and the message
classified, for each action tag. -/

theorem processEmail_reply_dispatch (env : Env) (u : String) (e : Email)
    (s : St) (content : EmailContent) (conf : ℚ) (reas : String)
    (hnp : (getUserEmailLogs s u).any (fun log => log.emailId == e.id) = false)
    (hcnt : env.getEmailContent e = .ok content)
    (ha : analyzeEmail env u content.body = .ok ⟨"reply", conf, reas⟩) :
    processEmail env u e s =
      insertActivity
        (handleReplyAction env u e s.nextLogId content.fromEmail content.body
          (insertEmailLog s
            { userId := u, emailId := e.id, fromEmail := content.fromEmail
            , subject := content.subject, action := "reply"
            , status := "pending" }).1)
        { userId := u, type := "email_reply"
        , description := "Email replied to: " ++ content.subject
        , metaFrom := content.fromEmail, metaSubject := content.subject
        , metaAction := "reply", metaConfidence := conf } := by
  show (processEmailRaw env u e s).state = _
  unfold processEmailRaw
  simp only [hnp, hcnt, ha]
  rfl

theorem processEmail_star_dispatch (env : Env) (u : String) (e : Email)
    (s : St) (content : EmailContent) (conf : ℚ) (reas : String)
    (hnp : (getUserEmailLogs s u).any (fun log => log.emailId == e.id) = false)
    (hcnt : env.getEmailContent e = .ok content)
    (ha : analyzeEmail env u content.body = .ok ⟨"star", conf, reas⟩) :
    processEmail env u e s =
      insertActivity
        (handleStarAction env u e s.nextLogId
          (insertEmailLog s
            { userId := u, emailId := e.id, fromEmail := content.fromEmail
            , subject := content.subject, action := "star"
            , status := "pending" }).1)
        { userId := u, type := "email_star"
        , description := "Email starred: " ++ content.subject
        , metaFrom := content.fromEmail, metaSubject := content.subject
        , metaAction := "star", metaConfidence := conf } := by
  show (processEmailRaw env u e s).state = _
  unfold processEmailRaw
  simp only [hnp, hcnt, ha]
  rfl

theorem processEmail_ignore_dispatch (env : Env) (u : String) (e : Email)
    (s : St) (content : EmailContent) (conf : ℚ) (reas : String)
    (hnp : (getUserEmailLogs s u).any (fun log => log.emailId == e.id) = false)
    (hcnt : env.getEmailContent e = .ok content)
    (ha : analyzeEmail env u content.body = .ok ⟨"ignore", conf, reas⟩) :
    processEmail env u e s =
      insertActivity
        (insertEmailLog s
          { userId := u, emailId := e.id, fromEmail := content.fromEmail
          , subject := content.subject, action := "ignore"
          , status := "pending" }).1
        { userId := u, type := "email_ignore"
        , description := "Email processed: " ++ content.subject
        , metaFrom := content.fromEmail, metaSubject := content.subject
        , metaAction := "ignore", metaConfidence := conf } := by
  show (processEmailRaw env u e s).state = _
  unfold processEmailRaw
  simp only [hnp, hcnt, ha]
  rfl

/-! Handler-outcome lemmas. -/

theorem handleReply_gen_fail (env : Env) (u : String) (e : Email) (i : Nat)
    (f b : String) (s : St)
    (h : generateReply env u b f = .error ()) :
    handleReplyAction env u e i f b s =
      (insertEmailLog s
        { userId := u, emailId := e.id, fromEmail := f
        , subject := "Reply failed", action := "reply"
        , status := "failed" }).1 := by
  simp only [handleReplyAction, h]

theorem handleReply_send_fail (env : Env) (u : String) (e : Email) (i : Nat)
    (f b : String) (s : St) (rt : String) (content : EmailContent)
    (hg : generateReply env u b f = .ok rt)
    (hc : env.getEmailContent e = .ok content)
    (hs : env.sendEmail u f (replySubject content.subject) rt = .error ()) :
    handleReplyAction env u e i f b s =
      (insertEmailLog
        (recordMailCall s
          (MailCall.sendCall u f (replySubject content.subject) rt))
        { userId := u, emailId := e.id, fromEmail := f
        , subject := "Reply failed", action := "reply"
        , status := "failed" }).1 := by
  simp only [handleReplyAction, hg, hc, hs]

theorem handleReply_send_ok (env : Env) (u : String) (e : Email) (i : Nat)
    (f b : String) (s : St) (rt : String) (content : EmailContent)
    (hg : generateReply env u b f = .ok rt)
    (hc : env.getEmailContent e = .ok content)
    (hs : env.sendEmail u f (replySubject content.subject) rt = .ok ()) :
    handleReplyAction env u e i f b s =
      (insertEmailLog
        (recordMailCall s
          (MailCall.sendCall u f (replySubject content.subject) rt))
        { userId := u, emailId := e.id, fromEmail := f
        , subject := replySubject content.subject, action := "reply"
        , responseText := some rt, status := "sent" }).1 := by
  simp only [handleReplyAction, hg, hc, hs]

theorem handleStar_fail (env : Env) (u : String) (e : Email) (i : Nat)
    (s : St) (h : env.starEmail u e.id = .error ()) :
    handleStarAction env u e i s =
      (insertEmailLog (recordMailCall s (MailCall.starCall u e.id))
        { userId := u, emailId := e.id, fromEmail := ""
        , subject := "Star failed", action := "star"
        , status := "failed" }).1 := by
  simp only [handleStarAction, h]

theorem handleStar_ok (env : Env) (u : String) (e : Email) (i : Nat)
    (s : St) (h : env.starEmail u e.id = .ok ()) :
    handleStarAction env u e i s =
      (insertEmailLog (recordMailCall s (MailCall.starCall u e.id))
        { userId := u, emailId := e.id, fromEmail := ""
        , subject := "Email starred", action := "star"
        , status := "sent" }).1 := by
  simp only [handleStarAction, h]

/-- Claim C3: whenever processEmail dispatches a reply or star action
(idempotency check passed, content extracted, classification returned
reply or star), exactly one terminal log row (status sent or failed) and
exactly one activity row are produced for that message in that run, in
addition to the pending row written before dispatch: the new log list is
the terminal row consed onto the pending row consed onto the old list,
and the new activity list adds exactly one row tagged with the action. -/
theorem C3_one_terminal_one_activity (env : Env) (u : String) (e : Email)
    (s : St) (content : EmailContent) (analysis : ClassificationResult)
    (hnp : (getUserEmailLogs s u).any (fun log => log.emailId == e.id) = false)
    (hcnt : env.getEmailContent e = .ok content)
    (ha : analyzeEmail env u content.body = .ok analysis)
    (hact : analysis.action = "reply" ∨ analysis.action = "star") :
    ∃ t a,
      (t.status = "sent" ∨ t.status = "failed") ∧
      t.userId = u ∧ t.emailId = e.id ∧
      (processEmail env u e s).logs = t ::
        { id := s.nextLogId, userId := u, emailId := e.id
        , fromEmail := content.fromEmail, subject := content.subject
        , action := analysis.action, responseText := none
        , status := "pending" } :: s.logs ∧
      (processEmail env u e s).activities = a :: s.activities ∧
      a.type = "email_" ++ analysis.action := by
  rcases hact with hact | hact
  · have ha' : analyzeEmail env u content.body =
        .ok ⟨"reply", analysis.confidence, analysis.reasoning⟩ := by
      rw [ha, ← hact]
    have hd := processEmail_reply_dispatch env u e s content
      analysis.confidence analysis.reasoning hnp hcnt ha'
    rw [hact]
    cases hg : generateReply env u content.body content.fromEmail with
    | error v =>
      cases v
      refine ⟨⟨s.nextLogId + 1, u, e.id, content.fromEmail, "Reply failed",
          "reply", none, "failed"⟩,
        ⟨u, "email_reply", "Email replied to: " ++ content.subject,
          content.fromEmail, content.subject, "reply", analysis.confidence⟩,
        Or.inr rfl, rfl, rfl, ?_, ?_, rfl⟩ <;>
      · rw [hd, handleReply_gen_fail env u e s.nextLogId content.fromEmail
          content.body _ hg]
        rfl
    | ok rt =>
      cases hs : env.sendEmail u content.fromEmail
          (replySubject content.subject) rt with
      | error v =>
        cases v
        refine ⟨⟨s.nextLogId + 1, u, e.id, content.fromEmail, "Reply failed",
            "reply", none, "failed"⟩,
          ⟨u, "email_reply", "Email replied to: " ++ content.subject,
            content.fromEmail, content.subject, "reply", analysis.confidence⟩,
          Or.inr rfl, rfl, rfl, ?_, ?_, rfl⟩ <;>
        · rw [hd, handleReply_send_fail env u e s.nextLogId content.fromEmail
            content.body _ rt content hg hcnt hs]
          rfl
      | ok v =>
        cases v
        refine ⟨⟨s.nextLogId + 1, u, e.id, content.fromEmail,
            replySubject content.subject, "reply", some rt, "sent"⟩,
          ⟨u, "email_reply", "Email replied to: " ++ content.subject,
            content.fromEmail, content.subject, "reply", analysis.confidence⟩,
          Or.inl rfl, rfl, rfl, ?_, ?_, rfl⟩ <;>
        · rw [hd, handleReply_send_ok env u e s.nextLogId content.fromEmail
            content.body _ rt content hg hcnt hs]
          rfl
  · have ha' : analyzeEmail env u content.body =
        .ok ⟨"star", analysis.confidence, analysis.reasoning⟩ := by
      rw [ha, ← hact]
    have hd := processEmail_star_dispatch env u e s content
      analysis.confidence analysis.reasoning hnp hcnt ha'
    rw [hact]
    cases hst : env.starEmail u e.id with
    | error v =>
      cases v
      refine ⟨⟨s.nextLogId + 1, u, e.id, "", "Star failed",
          "star", none, "failed"⟩,
        ⟨u, "email_star", "Email starred: " ++ content.subject,
          content.fromEmail, content.subject, "star", analysis.confidence⟩,
        Or.inr rfl, rfl, rfl, ?_, ?_, rfl⟩ <;>
      · rw [hd, handleStar_fail env u e s.nextLogId _ hst]
        rfl
    | ok v =>
      cases v
      refine ⟨⟨s.nextLogId + 1, u, e.id, "", "Email starred",
          "star", none, "sent"⟩,
        ⟨u, "email_star", "Email starred: " ++ content.subject,
          content.fromEmail, content.subject, "star", analysis.confidence⟩,
        Or.inl rfl, rfl, rfl, ?_, ?_, rfl⟩ <;>
      · rw [hd, handleStar_ok env u e s.nextLogId _ hst]
        rfl

/-- Witness for C3: a starred message in exEnvStar yields one sent star
row on top of the pending row and one email_star activity row. -/
theorem C3_witness :
    ∃ t a,
      (t.status = "sent" ∨ t.status = "failed") ∧
      t.userId = "u" ∧ t.emailId = "m2" ∧
      (processEmail exEnvStar "u" ⟨"m2"⟩ exSt0).logs = t ::
        { id := exSt0.nextLogId, userId := "u", emailId := "m2"
        , fromEmail := "a@b", subject := "subj"
        , action := ("star" : String), responseText := none
        , status := "pending" } :: exSt0.logs ∧
      (processEmail exEnvStar "u" ⟨"m2"⟩ exSt0).activities = a :: exSt0.activities ∧
      a.type = "email_" ++ "star" :=
  C3_one_terminal_one_activity exEnvStar "u" ⟨"m2"⟩ exSt0
    ⟨"a@b", "subj", "body"⟩ ⟨"star", 0, "r"⟩ rfl rfl rfl (Or.inr rfl)

/-- Claim C4: when processEmail reaches a reply dispatch and the reply
attempt fails (the reply generation call throws, or the send call
throws), a new log row with action reply, status failed and subject
Reply failed is appended without overwriting the pending row (both rows
remain in the list), and the email_reply activity row for the message is
still recorded. -/
theorem C4_reply_failure_rows (env : Env) (u : String) (e : Email) (s : St)
    (content : EmailContent) (analysis : ClassificationResult)
    (hnp : (getUserEmailLogs s u).any (fun log => log.emailId == e.id) = false)
    (hcnt : env.getEmailContent e = .ok content)
    (ha : analyzeEmail env u content.body = .ok analysis)
    (hact : analysis.action = "reply")
    (hfail : generateReply env u content.body content.fromEmail = .error () ∨
      ∃ rt, generateReply env u content.body content.fromEmail = .ok rt ∧
        env.sendEmail u content.fromEmail (replySubject content.subject) rt =
          .error ()) :
    (processEmail env u e s).logs =
      { id := s.nextLogId + 1, userId := u, emailId := e.id
      , fromEmail := content.fromEmail, subject := "Reply failed"
      , action := "reply", responseText := none, status := "failed" } ::
      { id := s.nextLogId, userId := u, emailId := e.id
      , fromEmail := content.fromEmail, subject := content.subject
      , action := "reply", responseText := none, status := "pending" } ::
      s.logs ∧
    (processEmail env u e s).activities =
      { userId := u, type := "email_reply"
      , description := "Email replied to: " ++ content.subject
      , metaFrom := content.fromEmail, metaSubject := content.subject
      , metaAction := "reply"
      , metaConfidence := analysis.confidence } :: s.activities := by
  have ha' : analyzeEmail env u content.body =
      .ok ⟨"reply", analysis.confidence, analysis.reasoning⟩ := by
    rw [ha, ← hact]
  have hd := processEmail_reply_dispatch env u e s content
    analysis.confidence analysis.reasoning hnp hcnt ha'
  rcases hfail with hgen | ⟨rt, hg, hs⟩
  · rw [hd, handleReply_gen_fail env u e s.nextLogId content.fromEmail
      content.body _ hgen]
    exact ⟨rfl, rfl⟩
  · rw [hd, handleReply_send_fail env u e s.nextLogId content.fromEmail
      content.body _ rt content hg hcnt hs]
    exact ⟨rfl, rfl⟩

/-- Witness for C4: in exEnvSendFail the send call throws, leaving a
failed row on top of the pending row plus the email_reply activity. -/
theorem C4_witness :
    (processEmail exEnvSendFail "u" ⟨"m1"⟩ exSt0).logs =
      [⟨1, "u", "m1", "a@b", "Reply failed", "reply", none, "failed"⟩,
       ⟨0, "u", "m1", "a@b", "subj", "reply", none, "pending"⟩] ∧
    (processEmail exEnvSendFail "u" ⟨"m1"⟩ exSt0).activities =
      [⟨"u", "email_reply", "Email replied to: subj", "a@b", "subj",
        "reply", 0⟩] :=
  C4_reply_failure_rows exEnvSendFail "u" ⟨"m1"⟩ exSt0
    ⟨"a@b", "subj", "body"⟩ ⟨"reply", 0, "r"⟩ rfl rfl rfl rfl
    (Or.inr ⟨"text", rfl, rfl⟩)

/-- Claim C10: if the classification API call throws, analyzeEmail does
not throw but returns the ignore fallback (action ignore, confidence 0,
reasoning Error analyzing email), so processEmail still appends a
pending log row with action ignore and an email_ignore activity row for
the message, and re-running processEmail on the same message afterwards
is a no-op: the message is permanently marked processed by the
idempotency check even though classification never succeeded. -/
theorem C10_classifier_error_still_processes (env : Env) (u : String)
    (e : Email) (s : St) (content : EmailContent) (cred : UserCredentials)
    (hnp : (getUserEmailLogs s u).any (fun log => log.emailId == e.id) = false)
    (hcnt : env.getEmailContent e = .ok content)
    (hcr : env.credentials u = some cred)
    (hk : jsTruthy cred.openaiApiKey = true)
    (hfail : env.classifyApi u content.body = .error ()) :
    analyzeEmail env u content.body =
      .ok { action := "ignore", confidence := 0
          , reasoning := "Error analyzing email" } ∧
    (processEmail env u e s).logs =
      { id := s.nextLogId, userId := u, emailId := e.id
      , fromEmail := content.fromEmail, subject := content.subject
      , action := "ignore", responseText := none
      , status := "pending" } :: s.logs ∧
    (processEmail env u e s).activities =
      { userId := u, type := "email_ignore"
      , description := "Email processed: " ++ content.subject
      , metaFrom := content.fromEmail, metaSubject := content.subject
      , metaAction := "ignore", metaConfidence := 0 } :: s.activities ∧
    processEmail env u e (processEmail env u e s) = processEmail env u e s := by
  have hres : analyzeEmail env u content.body =
      .ok { action := "ignore", confidence := 0
          , reasoning := "Error analyzing email" } := by
    simp only [analyzeEmail, hcr, hk, hfail, if_true]
  have hd := processEmail_ignore_dispatch env u e s content 0
    "Error analyzing email" hnp hcnt hres
  have hlogs : (processEmail env u e s).logs =
      { id := s.nextLogId, userId := u, emailId := e.id
      , fromEmail := content.fromEmail, subject := content.subject
      , action := "ignore", responseText := none
      , status := "pending" } :: s.logs := by
    rw [hd]
    rfl
  refine ⟨hres, hlogs, ?_, ?_⟩
  · rw [hd]
    rfl
  · exact processEmail_skip env u e _
      (getUserEmailLogs_any_head u e.id _ _ s.logs hlogs rfl rfl)

/-- Witness for C10: with exEnv1 (classifier call throws) a fresh
message m is logged as pending ignore, the activity is recorded, and a
second run on the same message changes nothing. -/
theorem C10_witness :
    analyzeEmail exEnv1 "u" "body" =
      .ok { action := "ignore", confidence := 0
          , reasoning := "Error analyzing email" } ∧
    (processEmail exEnv1 "u" ⟨"m"⟩ exSt0).logs =
      [⟨0, "u", "m", "a@b", "subj", "ignore", none, "pending"⟩] ∧
    (processEmail exEnv1 "u" ⟨"m"⟩ exSt0).activities =
      [⟨"u", "email_ignore", "Email processed: subj", "a@b", "subj",
        "ignore", 0⟩] ∧
    processEmail exEnv1 "u" ⟨"m"⟩ (processEmail exEnv1 "u" ⟨"m"⟩ exSt0) =
      processEmail exEnv1 "u" ⟨"m"⟩ exSt0 :=
  C10_classifier_error_still_processes exEnv1 "u" ⟨"m"⟩ exSt0
    ⟨"a@b", "subj", "body"⟩ exCred rfl rfl rfl (by decide) rfl

end AIAgent
